import Mathlib

/-!
Shallow embedding of the haptic indoor-navigation engine.

Sources embedded here:
- `src/hooks/useIndoorNavigation.ts` (alignment, Policy A/B arrival loops,
  per-waypoint tracker reset, `normalizeAngleDiff`);
- `src/context/AppContext.tsx` (the `NavigationState` session machine:
  `startNavigation`, `stopNavigation`, `advanceToNextWaypoint`,
  `markWaypointReached`, `incrementStepCount`, `getCurrentWaypoint`);
- `src/unnamed/part_000` (`useHeadingBasedNavigation`'s movement detector and
  `useStepBasedNavigation`'s step gate).

JavaScript numbers are modelled as `ℚ`; timestamps (`Date.now()` values) as `ℚ`
as well.  `null`/`undefined` become `Option`.  The asynchronous parts (interval
ticks, `setTimeout` settle delays, late callbacks) are modelled as explicit
events applied to an engine state, mirroring the single-threaded JS event loop.
-/

/-- One iteration bundle of the source's first loop
`while (diff > 180) diff -= 360`. -/
def reduceDown (d : ℚ) : ℚ :=
  if h : 180 < d then reduceDown (d - 360) else d
termination_by (⌈(d - 180) / 360⌉).toNat
decreasing_by
  have h1 : (d - 360 - 180) / 360 = (d - 180) / 360 - 1 := by ring
  have h2 : (0 : ℚ) < (d - 180) / 360 := by
    apply div_pos (by linarith) (by norm_num)
  have h3 : 0 < ⌈(d - 180) / 360⌉ := Int.ceil_pos.mpr h2
  have h4 : ⌈(d - 360 - 180) / 360⌉ = ⌈(d - 180) / 360⌉ - 1 := by
    rw [h1]
    exact_mod_cast Int.ceil_sub_one ((d - 180) / 360)
  rw [h4]
  omega

/-- One iteration bundle of the source's second loop
`while (diff < -180) diff += 360`. -/
def reduceUp (d : ℚ) : ℚ :=
  if h : d < -180 then reduceUp (d + 360) else d
termination_by (⌈(-180 - d) / 360⌉).toNat
decreasing_by
  have h1 : (-180 - (d + 360)) / 360 = (-180 - d) / 360 - 1 := by ring
  have h2 : (0 : ℚ) < (-180 - d) / 360 := by
    apply div_pos (by linarith) (by norm_num)
  have h3 : 0 < ⌈(-180 - d) / 360⌉ := Int.ceil_pos.mpr h2
  have h4 : ⌈(-180 - (d + 360)) / 360⌉ = ⌈(-180 - d) / 360⌉ - 1 := by
    rw [h1]
    exact_mod_cast Int.ceil_sub_one ((-180 - d) / 360)
  rw [h4]
  omega

/-- `normalizeAngleDiff(currentDeg, targetDeg)` from
`src/hooks/useIndoorNavigation.ts` (the identical copies in
`src/unnamed/part_000` are the same function):
`let diff = targetDeg - currentDeg; while (diff > 180) diff -= 360;
while (diff < -180) diff += 360; return diff`. -/
def normalizeAngleDiff (currentDeg targetDeg : ℚ) : ℚ :=
  reduceUp (reduceDown (targetDeg - currentDeg))

/-- `FeedbackMode` from `src/context/AppContext.tsx`. -/
inductive FeedbackMode where
  | audio
  | staticHaptic
  | dynamicHaptic
  | stepBased
deriving DecidableEq, Repr

/-- `NavigationWaypoint` from `src/context/AppContext.tsx`. -/
structure NavigationWaypoint where
  waypointId : String
  order : Nat
  name : Option String
  direction : String
  targetHeading : Option ℚ
  stepCountToNext : Option Nat
  createdAt : ℚ
deriving DecidableEq, Repr

/-- `NavigationRoute` from `src/context/AppContext.tsx`. -/
structure NavigationRoute where
  routeId : String
  routeName : String
  waypoints : List NavigationWaypoint
  taskType : Option String
  createdAt : ℚ
  updatedAt : ℚ
deriving DecidableEq, Repr

/-- `NavigationState` from `src/context/AppContext.tsx`. -/
structure NavigationState where
  routeId : Option String
  currentWaypointIndex : Nat
  isActive : Bool
  feedbackMode : Option FeedbackMode
  reachedCurrentWaypoint : Bool
  currentStepCount : Nat
deriving DecidableEq, Repr

/-- The initial navigation state installed by `useState` in `AppProvider`. -/
def navInit : NavigationState :=
  { routeId := none
    currentWaypointIndex := 0
    isActive := false
    feedbackMode := none
    reachedCurrentWaypoint := false
    currentStepCount := 0 }

/-- `routes.find((r) => r.routeId === routeId)` as used throughout
`src/context/AppContext.tsx`. -/
def findRoute (routes : List NavigationRoute) (routeId : String) :
    Option NavigationRoute :=
  routes.find? (fun r => r.routeId == routeId)

/-- `startNavigation` from `src/context/AppContext.tsx` (lines 255-272).
The `console.warn` emitted on the rejection path is modelled as the first
component of the result; the second component is the session state after the
call (`setNavigationState` is not called on the rejection path, so the
previous state is returned unchanged). -/
def startNavigation (routes : List NavigationRoute) (routeId : String)
    (feedbackMode : FeedbackMode) (prev : NavigationState) :
    Option String × NavigationState :=
  match findRoute routes routeId with
  | none => (some "Cannot start navigation: route not found or has no waypoints", prev)
  | some route =>
    if route.waypoints.length = 0 then
      (some "Cannot start navigation: route not found or has no waypoints", prev)
    else
      (none,
        { routeId := some routeId
          currentWaypointIndex := 0
          isActive := true
          feedbackMode := some feedbackMode
          reachedCurrentWaypoint := false
          currentStepCount := 0 })

/-- `stopNavigation` from `src/context/AppContext.tsx` (lines 274-281). -/
def stopNavigation (prev : NavigationState) : NavigationState :=
  { prev with
      isActive := false
      reachedCurrentWaypoint := false
      currentStepCount := 0 }

/-- `advanceToNextWaypoint` from `src/context/AppContext.tsx` (lines 283-304). -/
def advanceToNextWaypoint (routes : List NavigationRoute)
    (prev : NavigationState) : NavigationState :=
  match prev.routeId with
  | none => prev
  | some rid =>
    match findRoute routes rid with
    | none => prev
    | some route =>
      let nextIndex := prev.currentWaypointIndex + 1
      if route.waypoints.length ≤ nextIndex then
        { prev with
            isActive := false
            reachedCurrentWaypoint := false }
      else
        { prev with
            currentWaypointIndex := nextIndex
            reachedCurrentWaypoint := false
            currentStepCount := 0 }

/-- `markWaypointReached` from `src/context/AppContext.tsx` (lines 306-311). -/
def markWaypointReached (prev : NavigationState) : NavigationState :=
  { prev with reachedCurrentWaypoint := true }

/-- `incrementStepCount` from `src/context/AppContext.tsx` (lines 320-325). -/
def incrementStepCount (prev : NavigationState) : NavigationState :=
  { prev with currentStepCount := prev.currentStepCount + 1 }

/-- `getCurrentWaypoint` from `src/context/AppContext.tsx` (lines 313-318);
out-of-range array indexing yields `undefined` in JS, i.e. `none`. -/
def getCurrentWaypoint (routes : List NavigationRoute)
    (s : NavigationState) : Option NavigationWaypoint :=
  match s.routeId with
  | none => none
  | some rid =>
    if s.isActive = false then none
    else
      match findRoute routes rid with
      | none => none
      | some route => route.waypoints[s.currentWaypointIndex]?

/-- Result of the alignment computation shared by `calculateAlignment`
(`src/hooks/useIndoorNavigation.ts`, lines 123-138) and the identical inline
blocks in `src/unnamed/part_000`. -/
structure AlignmentResult where
  alignmentError : Option ℚ
  absoluteError : Option ℚ
  isAligned : Bool
deriving DecidableEq, Repr

/-- The alignment branch of `calculateAlignment`
(`src/hooks/useIndoorNavigation.ts`, lines 123-138):
`if (targetHeading !== null && currentHeading !== null) (compute error)
else if (targetHeading === null) isAligned = true`. -/
def calculateAlignment (currentHeading targetHeading : Option ℚ)
    (alignmentThresholdDeg : ℚ) : AlignmentResult :=
  match targetHeading, currentHeading with
  | some t, some c =>
    let e := normalizeAngleDiff c t
    { alignmentError := some e
      absoluteError := some |e|
      isAligned := decide (|e| ≤ alignmentThresholdDeg) }
  | none, _ =>
    { alignmentError := none, absoluteError := none, isAligned := true }
  | some _, none =>
    { alignmentError := none, absoluteError := none, isAligned := false }

/-- Step-gate status computed by `calculateStatus` of `useStepBasedNavigation`
(`src/unnamed/part_000`, lines 386-447), restricted to the fields derived from
the waypoint and the session (display-only fields are omitted). -/
structure StepStatus where
  currentStepCount : Nat
  requiredStepCount : Option Nat
  stepProgress : ℚ
  isAligned : Bool
  canAdvance : Bool
deriving DecidableEq, Repr

/-- `calculateStatus` of `useStepBasedNavigation` (`src/unnamed/part_000`,
lines 406-430): `stepProgress = min(100, current/required*100)` when
`requiredStepCount` is set and positive, else `0`;
`canAdvance = (requiredStepCount !== null && currentStepCount >= requiredStepCount) && isAligned`. -/
def calculateStepStatus (w : NavigationWaypoint) (s : NavigationState)
    (heading : Option ℚ) (alignmentThresholdDeg : ℚ) : StepStatus :=
  let requiredStepCount := w.stepCountToNext
  let currentStepCount := s.currentStepCount
  let stepProgress : ℚ :=
    match requiredStepCount with
    | some r => if 0 < r then min 100 ((currentStepCount / (r : ℚ)) * 100) else 0
    | none => 0
  let align := calculateAlignment heading w.targetHeading alignmentThresholdDeg
  let hasRequiredSteps : Bool :=
    match requiredStepCount with
    | some r => decide (r ≤ currentStepCount)
    | none => false
  { currentStepCount := currentStepCount
    requiredStepCount := requiredStepCount
    stepProgress := stepProgress
    isAligned := align.isAligned
    canAdvance := hasRequiredSteps && align.isAligned }

/-- A 3-axis accelerometer sample (`expo-sensors` data in
`src/unnamed/part_000`). -/
structure AccelSample where
  x : ℚ
  y : ℚ
  z : ℚ
deriving DecidableEq, Repr

/-- Per-waypoint refs of the movement detector in `useHeadingBasedNavigation`
(`src/unnamed/part_000`, lines 79-84). -/
structure MovementTracker where
  initialHeading : Option ℚ
  lastHeading : Option ℚ
  headingChangeDetected : Bool
  headingStableSince : Option ℚ
  alignedStartTime : Option ℚ
deriving DecidableEq, Repr

/-- The reset effect of `useHeadingBasedNavigation` that runs whenever
`navigationState.currentWaypointIndex` changes (`src/unnamed/part_000`,
lines 139-148): every ref is overwritten, independently of its old value. -/
def resetMovementTracker (heading : Option ℚ) : MovementTracker :=
  { initialHeading := heading
    lastHeading := heading
    headingChangeDetected := false
    headingStableSince := none
    alignedStartTime := none }

/-- HEADING_CHANGE_THRESHOLD of `src/unnamed/part_000` (30 degrees). -/
def HB_HEADING_CHANGE_THRESHOLD : ℚ := 30

/-- MOVEMENT_STABLE_TIME of `src/unnamed/part_000` (2000 ms). -/
def MOVEMENT_STABLE_TIME : ℚ := 2000

/-- ACCELEROMETER_THRESHOLD of `src/unnamed/part_000` (0.1). -/
def ACCELEROMETER_THRESHOLD : ℚ := 1 / 10

/-- The heading-only movement branch of `calculateStatus` in
`useHeadingBasedNavigation` (`src/unnamed/part_000`, lines 194-216), before
accelerometer fusion: returns `(hasMoved, movementConfidence)`.  The outer
guard requires `heading`, `lastHeadingRef` and `initialHeadingRef` all
non-null. -/
def headingMovement (tr : MovementTracker) (now : ℚ) (heading : Option ℚ) :
    Bool × ℚ :=
  match heading, tr.lastHeading, tr.initialHeading with
  | some h, some lastH, some initH =>
    let headingChange := |normalizeAngleDiff h initH|
    if HB_HEADING_CHANGE_THRESHOLD < headingChange then
      match tr.headingStableSince with
      | some since =>
        let stableDuration := now - since
        let recentChange := |normalizeAngleDiff h lastH|
        if recentChange < 5 then
          (true, min 1 (stableDuration / MOVEMENT_STABLE_TIME))
        else
          (true, 3 / 10)
      | none => (true, 2 / 10)
    else (false, 0)
  | _, _, _ => (false, 0)

/-- The accelerometer movement test of `calculateStatus` in
`useHeadingBasedNavigation` (`src/unnamed/part_000`, lines 219-229).  The
source compares `sqrt(dx^2 + dy^2 + dz^2) > ACCELEROMETER_THRESHOLD`; since
both sides are non-negative this is embedded as the equivalent squared
comparison, keeping the definition executable. -/
def accelDeltaExceeds (accel lastAccel : Option AccelSample) : Bool :=
  match accel, lastAccel with
  | some a, some b =>
    decide (ACCELEROMETER_THRESHOLD ^ 2 <
      (a.x - b.x) ^ 2 + (a.y - b.y) ^ 2 + (a.z - b.z) ^ 2)
  | _, _ => false

/-- The movement-related outputs of `calculateStatus` in
`useHeadingBasedNavigation` (`src/unnamed/part_000`, lines 174-240):
`hasMoved`, `movementConfidence`, `alignedMovementTime`, plus the value the
`alignedStartTimeRef` holds after the evaluation. -/
structure MovementStatus where
  isAligned : Bool
  hasMoved : Bool
  movementConfidence : ℚ
  alignedMovementTime : ℚ
  alignedStartTimeAfter : Option ℚ
deriving DecidableEq, Repr

/-- `calculateStatus` of `useHeadingBasedNavigation` (`src/unnamed/part_000`,
lines 174-256), movement portion.  Note that in the source the accelerometer
fusion (lines 219-229) sits inside the heading non-null guard but OUTSIDE the
`headingChange > HEADING_CHANGE_THRESHOLD` branch, so it applies whether or
not `hasMoved` was set. -/
def calculateMovementStatus (tr : MovementTracker) (now : ℚ)
    (heading targetHeading : Option ℚ) (alignmentThresholdDeg : ℚ)
    (accel lastAccel : Option AccelSample) : MovementStatus :=
  let align := calculateAlignment heading targetHeading alignmentThresholdDeg
  let base := headingMovement tr now heading
  let movementConfidence : ℚ :=
    match heading, tr.lastHeading, tr.initialHeading with
    | some _, some _, some _ =>
      if accelDeltaExceeds accel lastAccel then max base.2 (4 / 10) else base.2
    | _, _, _ => base.2
  let amt : Option ℚ × ℚ :=
    if align.isAligned && base.1 then
      match tr.alignedStartTime with
      | none => (some now, 0)
      | some start => (some start, now - start)
    else (none, 0)
  { isAligned := align.isAligned
    hasMoved := base.1
    movementConfidence := movementConfidence
    alignedMovementTime := amt.2
    alignedStartTimeAfter := amt.1 }

/-- Per-waypoint refs of the Policy A loop in `useIndoorNavigation`
(`src/hooks/useIndoorNavigation.ts`, lines 70-74). -/
structure TrackerA where
  waypointStartTime : Option ℚ
  alignedStartTime : Option ℚ
  lastAlignmentCheck : ℚ
deriving DecidableEq, Repr

/-- Per-waypoint refs of the Policy B (direction-only) loop in
`useIndoorNavigation` (`src/hooks/useIndoorNavigation.ts`, lines 76-79). -/
structure TrackerB where
  initialHeading : Option ℚ
  lastHeading : Option ℚ
  headingChangeDetected : Bool
  headingStableSince : Option ℚ
deriving DecidableEq, Repr

/-- Initial refs of `useIndoorNavigation` on mount. -/
def trackerAInit : TrackerA :=
  { waypointStartTime := none, alignedStartTime := none, lastAlignmentCheck := 0 }

/-- Initial Policy B refs of `useIndoorNavigation` on mount. -/
def trackerBInit : TrackerB :=
  { initialHeading := none, lastHeading := none
    headingChangeDetected := false, headingStableSince := none }

/-- The engine state driven by the JS event loop: the shared session state
plus the `useIndoorNavigation` refs and the pending (never-cancelled)
`setTimeout` settle delays, listed by their absolute fire times. -/
structure EngineState where
  nav : NavigationState
  trackerA : TrackerA
  trackerB : TrackerB
  pendingTimeouts : List ℚ
deriving DecidableEq, Repr

/-- ALIGNMENT_CHECK_INTERVAL of `useIndoorNavigation` (200 ms). -/
def ALIGNMENT_CHECK_INTERVAL : ℚ := 200

/-- ADVANCE_CONFIRMATION_MS of `useIndoorNavigation` (300 ms). -/
def ADVANCE_CONFIRMATION_MS : ℚ := 300

/-- HEADING_CHANGE_THRESHOLD of `useIndoorNavigation` (20 degrees). -/
def HEADING_CHANGE_THRESHOLD : ℚ := 20

/-- HEADING_STABLE_DURATION of `useIndoorNavigation` (1500 ms). -/
def HEADING_STABLE_DURATION : ℚ := 1500

/-- The reset effect of `useIndoorNavigation` that runs when
`alignment.waypointIndex` differs from `lastWaypointIndexRef`
(`src/hooks/useIndoorNavigation.ts`, lines 157-169): all per-waypoint timers
and heading tracking are overwritten.  `lastAlignmentCheckRef` is a throttle,
not per-waypoint state, and is not touched by this effect. -/
def resetTrackersOnWaypointChange (s : EngineState) (now : ℚ)
    (heading : Option ℚ) : EngineState :=
  { s with
      trackerA :=
        { s.trackerA with
            waypointStartTime := some now
            alignedStartTime := none }
      trackerB :=
        { initialHeading := heading
          lastHeading := heading
          headingChangeDetected := false
          headingStableSince := none } }

/-- One firing of the Policy A interval callback of `useIndoorNavigation`
(`src/hooks/useIndoorNavigation.ts`, lines 205-252).  On confirmation it calls
`markWaypointReached()` and schedules `setTimeout(advanceToNextWaypoint, 300)`;
the timeout handle is not stored anywhere, so it is appended to
`pendingTimeouts` and survives everything that follows.  Note the callback
does not clear `alignedStartTimeRef` when it fires. -/
def tickA (routes : List NavigationRoute) (s : EngineState) (now : ℚ)
    (heading : Option ℚ) (alignmentThresholdDeg : ℚ) : EngineState :=
  if now - s.trackerA.lastAlignmentCheck < ALIGNMENT_CHECK_INTERVAL then s
  else
    let s1 : EngineState :=
      { s with trackerA := { s.trackerA with lastAlignmentCheck := now } }
    match getCurrentWaypoint routes s1.nav with
    | none => s1
    | some w =>
      let isAligned : Bool :=
        match w.targetHeading, heading with
        | some t, some c => decide (|normalizeAngleDiff c t| ≤ alignmentThresholdDeg)
        | _, _ => false
      if isAligned then
        match s1.trackerA.alignedStartTime with
        | none =>
          { s1 with trackerA := { s1.trackerA with alignedStartTime := some now } }
        | some start =>
          if ADVANCE_CONFIRMATION_MS ≤ now - start then
            { s1 with
                nav := markWaypointReached s1.nav
                pendingTimeouts := s1.pendingTimeouts ++ [now + 300] }
          else s1
      else
        { s1 with trackerA := { s1.trackerA with alignedStartTime := none } }

/-- One firing of the Policy B (direction-only) interval callback of
`useIndoorNavigation` (`src/hooks/useIndoorNavigation.ts`, lines 262-305). -/
def tickB (s : EngineState) (now : ℚ) (heading : Option ℚ) : EngineState :=
  match heading, s.trackerB.lastHeading with
  | some h, some lastH =>
    let headingChange : ℚ :=
      match s.trackerB.initialHeading with
      | some initH => |normalizeAngleDiff h initH|
      | none => 0
    let recentChange : ℚ := |normalizeAngleDiff h lastH|
    let tDetect : TrackerB :=
      if HEADING_CHANGE_THRESHOLD ≤ headingChange ∧
          s.trackerB.headingChangeDetected = false then
        { s.trackerB with
            headingChangeDetected := true
            headingStableSince := some now }
      else s.trackerB
    match tDetect.headingChangeDetected, tDetect.headingStableSince with
    | true, some since =>
      if recentChange < 5 then
        if HEADING_STABLE_DURATION ≤ now - since then
          { s with
              nav := markWaypointReached s.nav
              trackerB := { tDetect with lastHeading := some h }
              pendingTimeouts := s.pendingTimeouts ++ [now + 300] }
        else
          { s with trackerB := { tDetect with lastHeading := some h } }
      else
        { s with
            trackerB :=
              { tDetect with
                  headingStableSince := some now
                  lastHeading := some h } }
    | _, _ => { s with trackerB := { tDetect with lastHeading := some h } }
  | _, _ => s

/-- Delivery of one pending settle-delay `setTimeout` scheduled by the
Policy A loop (`src/hooks/useIndoorNavigation.ts`, lines 238-245): the
callback runs `advanceToNextWaypoint()`, nulls `alignedStartTimeRef` and
clears the interval.  Nothing ever cancels these timeouts, and
`advanceToNextWaypoint` does not check `isActive`. -/
def deliverSettleTimeout (routes : List NavigationRoute) (s : EngineState) :
    EngineState :=
  match s.pendingTimeouts with
  | [] => s
  | _ :: rest =>
    { s with
        nav := advanceToNextWaypoint routes s.nav
        trackerA := { s.trackerA with alignedStartTime := none }
        pendingTimeouts := rest }

/-- `stopNavigation` applied through the engine: the effect cleanup clears the
interval and the heading subscription, but the session state transition is
exactly `stopNavigation`, and pending `setTimeout`s are untouched (no handle
to them exists). -/
def stopEngine (s : EngineState) : EngineState :=
  { s with nav := stopNavigation s.nav }

/-- A waypoint with a target heading of 90 degrees (Policy A applies). -/
def wp0 : NavigationWaypoint :=
  { waypointId := "w0", order := 0, name := none, direction := "Go straight"
    targetHeading := some 90, stepCountToNext := some 10, createdAt := 0 }

/-- A second waypoint with a target heading. -/
def wp1 : NavigationWaypoint :=
  { waypointId := "w1", order := 1, name := none, direction := "Turn left"
    targetHeading := some 0, stepCountToNext := some 10, createdAt := 0 }

/-- A third waypoint. -/
def wp2 : NavigationWaypoint :=
  { waypointId := "w2", order := 2, name := none, direction := "Stop here"
    targetHeading := some 180, stepCountToNext := none, createdAt := 0 }

/-- A two-waypoint route. -/
def demoRoute2 : NavigationRoute :=
  { routeId := "r1", routeName := "Route 1", waypoints := [wp0, wp1]
    taskType := none, createdAt := 0, updatedAt := 0 }

/-- A three-waypoint route. -/
def demoRoute3 : NavigationRoute :=
  { routeId := "r3", routeName := "Route 3", waypoints := [wp0, wp1, wp2]
    taskType := none, createdAt := 0, updatedAt := 0 }

/-- A stored route with zero waypoints (valid for storage, invalid as a
navigation target). -/
def emptyRoute : NavigationRoute :=
  { routeId := "r0", routeName := "Empty", waypoints := []
    taskType := none, createdAt := 0, updatedAt := 0 }

/-- Route repository holding the two-waypoint route. -/
def demoRoutes2 : List NavigationRoute := [demoRoute2]

/-- Route repository holding the three-waypoint route. -/
def demoRoutes3 : List NavigationRoute := [demoRoute3]

/-- Route repository holding the empty route. -/
def emptyRoutes : List NavigationRoute := [emptyRoute]

/-- Session right after `startNavigation(demoRoutes2, "r1", audio)`. -/
def startedNav2 : NavigationState :=
  (startNavigation demoRoutes2 "r1" FeedbackMode.audio navInit).2

/-- Session right after `startNavigation(demoRoutes3, "r3", audio)`. -/
def startedNav3 : NavigationState :=
  (startNavigation demoRoutes3 "r3" FeedbackMode.audio navInit).2

/-- Scenario for C2 (Stop followed by a late settle-delay timeout), start
state: freshly started session on the two-waypoint route. -/
def c2s0 : EngineState :=
  { nav := startedNav2, trackerA := trackerAInit, trackerB := trackerBInit
    pendingTimeouts := [] }

/-- C2 trace, after the Policy A tick at t=200 with heading 90 (aligned):
the aligned-since timer starts. -/
def c2s1 : EngineState := tickA demoRoutes2 c2s0 200 (some 90) 15

/-- C2 trace, after the tick at t=600 (still aligned, 400 ms ≥ 300 ms):
`Arrived` fires, `markWaypointReached` runs and a settle-delay
`setTimeout` is scheduled for t=900. -/
def c2s2 : EngineState := tickA demoRoutes2 c2s1 600 (some 90) 15

/-- C2 trace, `Stop()` called during the settle delay. -/
def c2s3 : EngineState := stopEngine c2s2

/-- C2 trace, the pending settle-delay timeout is delivered after the stop. -/
def c2s4 : EngineState := deliverSettleTimeout demoRoutes2 c2s3

/-- Scenario for C3 (double advance during the grace period), start state:
freshly started session on the three-waypoint route. -/
def c3s0 : EngineState :=
  { nav := startedNav3, trackerA := trackerAInit, trackerB := trackerBInit
    pendingTimeouts := [] }

/-- C3 trace, tick at t=200 with heading 90 (aligned): aligned-since := 200. -/
def c3s1 : EngineState := tickA demoRoutes3 c3s0 200 (some 90) 15

/-- C3 trace, tick at t=600: first `Arrived` fires, settle timeout at t=900. -/
def c3s2 : EngineState := tickA demoRoutes3 c3s1 600 (some 90) 15

/-- C3 trace, tick at t=800, still inside the grace period of the first
signal: the aligned-since timer was never cleared, so a second `Arrived`
fires and a second settle timeout is scheduled for t=1100. -/
def c3s3 : EngineState := tickA demoRoutes3 c3s2 800 (some 90) 15

/-- C3 trace, first settle timeout delivered at t=900: first advance. -/
def c3s4 : EngineState := deliverSettleTimeout demoRoutes3 c3s3

/-- C3 trace, second settle timeout delivered at t=1100: second advance,
committed without any evaluation at waypoint 1. -/
def c3s5 : EngineState := deliverSettleTimeout demoRoutes3 c3s4

/-- Movement tracker for the C9 input: heading steady (no change detected),
no stabilization timer. -/
def c9Tracker : MovementTracker :=
  { initialHeading := some 0, lastHeading := some 0
    headingChangeDetected := false, headingStableSince := none
    alignedStartTime := none }

/-- C9 input: heading steady at 0 degrees, no target heading, but an
accelerometer delta of magnitude 1 (above the 0.1 threshold). -/
def c9Status : MovementStatus :=
  calculateMovementStatus c9Tracker 1000 (some 0) none 15
    (some { x := 1, y := 0, z := 0 }) (some { x := 0, y := 0, z := 0 })

/-- A step-gated waypoint: 10 steps required, no target heading (so alignment
is trivially satisfied, as in Scenario 3 "aligned throughout"). -/
def stepWp : NavigationWaypoint :=
  { waypointId := "ws", order := 0, name := none, direction := "Walk forward"
    targetHeading := none, stepCountToNext := some 10, createdAt := 0 }

theorem reduceDown_of_le (d : ℚ) (h : d ≤ 180) : reduceDown d = d := by
  rw [reduceDown]
  simp [not_lt.mpr h]

theorem reduceUp_of_ge (d : ℚ) (h : -180 ≤ d) : reduceUp d = d := by
  rw [reduceUp]
  simp [not_lt.mpr h]

theorem reduceDown_le (d : ℚ) : reduceDown d ≤ 180 := by
  rw [reduceDown]
  split
  · exact reduceDown_le (d - 360)
  · linarith [not_lt.mp (by assumption : ¬ 180 < d)]
termination_by (⌈(d - 180) / 360⌉).toNat
decreasing_by
  rename_i h
  have h1 : (d - 360 - 180) / 360 = (d - 180) / 360 - 1 := by ring
  have h2 : (0 : ℚ) < (d - 180) / 360 := by
    apply div_pos (by linarith) (by norm_num)
  have h3 : 0 < ⌈(d - 180) / 360⌉ := Int.ceil_pos.mpr h2
  have h4 : ⌈(d - 360 - 180) / 360⌉ = ⌈(d - 180) / 360⌉ - 1 := by
    rw [h1]
    exact_mod_cast Int.ceil_sub_one ((d - 180) / 360)
  rw [h4]
  omega

theorem reduceDown_ge (d : ℚ) (h : -180 ≤ d) : -180 ≤ reduceDown d := by
  rw [reduceDown]
  split
  · rename_i hgt
    exact reduceDown_ge (d - 360) (by linarith)
  · exact h
termination_by (⌈(d - 180) / 360⌉).toNat
decreasing_by
  rename_i hgt
  have h1 : (d - 360 - 180) / 360 = (d - 180) / 360 - 1 := by ring
  have h2 : (0 : ℚ) < (d - 180) / 360 := by
    apply div_pos (by linarith) (by norm_num)
  have h3 : 0 < ⌈(d - 180) / 360⌉ := Int.ceil_pos.mpr h2
  have h4 : ⌈(d - 360 - 180) / 360⌉ = ⌈(d - 180) / 360⌉ - 1 := by
    rw [h1]
    exact_mod_cast Int.ceil_sub_one ((d - 180) / 360)
  rw [h4]
  omega

theorem reduceUp_ge' (d : ℚ) : -180 ≤ reduceUp d := by
  rw [reduceUp]
  split
  · exact reduceUp_ge' (d + 360)
  · linarith [not_lt.mp (by assumption : ¬ d < -180)]
termination_by (⌈(-180 - d) / 360⌉).toNat
decreasing_by
  rename_i h
  have h1 : (-180 - (d + 360)) / 360 = (-180 - d) / 360 - 1 := by ring
  have h2 : (0 : ℚ) < (-180 - d) / 360 := by
    apply div_pos (by linarith) (by norm_num)
  have h3 : 0 < ⌈(-180 - d) / 360⌉ := Int.ceil_pos.mpr h2
  have h4 : ⌈(-180 - (d + 360)) / 360⌉ = ⌈(-180 - d) / 360⌉ - 1 := by
    rw [h1]
    exact_mod_cast Int.ceil_sub_one ((-180 - d) / 360)
  rw [h4]
  omega

theorem reduceUp_le (d : ℚ) (h : d ≤ 180) : reduceUp d ≤ 180 := by
  rw [reduceUp]
  split
  · rename_i hlt
    exact reduceUp_le (d + 360) (by linarith)
  · exact h
termination_by (⌈(-180 - d) / 360⌉).toNat
decreasing_by
  rename_i hlt
  have h1 : (-180 - (d + 360)) / 360 = (-180 - d) / 360 - 1 := by ring
  have h2 : (0 : ℚ) < (-180 - d) / 360 := by
    apply div_pos (by linarith) (by norm_num)
  have h3 : 0 < ⌈(-180 - d) / 360⌉ := Int.ceil_pos.mpr h2
  have h4 : ⌈(-180 - (d + 360)) / 360⌉ = ⌈(-180 - d) / 360⌉ - 1 := by
    rw [h1]
    exact_mod_cast Int.ceil_sub_one ((-180 - d) / 360)
  rw [h4]
  omega

theorem normalizeAngleDiff_eq (c t : ℚ) (h1 : -180 ≤ t - c) (h2 : t - c ≤ 180) :
    normalizeAngleDiff c t = t - c := by
  unfold normalizeAngleDiff
  rw [reduceDown_of_le _ h2, reduceUp_of_ge _ h1]

theorem normalizeAngleDiff_self (a : ℚ) : normalizeAngleDiff a a = 0 := by
  have h := normalizeAngleDiff_eq a a (by norm_num) (by norm_num)
  simpa using h

theorem normalizeAngleDiff_mem (a b : ℚ) :
    -180 ≤ normalizeAngleDiff a b ∧ normalizeAngleDiff a b ≤ 180 := by
  unfold normalizeAngleDiff
  exact ⟨reduceUp_ge' _, reduceUp_le _ (reduceDown_le _)⟩

theorem tickA_sets_start
    (routes : List NavigationRoute) (s : EngineState) (now c thr t : ℚ)
    (w : NavigationWaypoint)
    (hth : ¬ now - s.trackerA.lastAlignmentCheck < ALIGNMENT_CHECK_INTERVAL)
    (hw : getCurrentWaypoint routes s.nav = some w)
    (ht : w.targetHeading = some t)
    (hal : |normalizeAngleDiff c t| ≤ thr)
    (hstart : s.trackerA.alignedStartTime = none) :
    tickA routes s now (some c) thr =
      { s with trackerA :=
          { s.trackerA with lastAlignmentCheck := now, alignedStartTime := some now } } := by
  unfold tickA
  rw [if_neg hth]
  simp only [hw, ht, hstart, hal, decide_eq_true_eq, if_true]

theorem tickA_fires
    (routes : List NavigationRoute) (s : EngineState) (now c thr t start : ℚ)
    (w : NavigationWaypoint)
    (hth : ¬ now - s.trackerA.lastAlignmentCheck < ALIGNMENT_CHECK_INTERVAL)
    (hw : getCurrentWaypoint routes s.nav = some w)
    (ht : w.targetHeading = some t)
    (hal : |normalizeAngleDiff c t| ≤ thr)
    (hstart : s.trackerA.alignedStartTime = some start)
    (hdur : ADVANCE_CONFIRMATION_MS ≤ now - start) :
    tickA routes s now (some c) thr =
      { s with
          nav := markWaypointReached s.nav
          trackerA := { s.trackerA with lastAlignmentCheck := now }
          pendingTimeouts := s.pendingTimeouts ++ [now + 300] } := by
  unfold tickA
  rw [if_neg hth]
  simp only [hw, ht, hstart, hal, decide_eq_true_eq, if_true]
  simp [hal, hdur]

theorem c2s1_eq :
    c2s1 = ⟨⟨some "r1", 0, true, some FeedbackMode.audio, false, 0⟩,
      ⟨none, some 200, 200⟩, trackerBInit, []⟩ := by
  unfold c2s1
  rw [tickA_sets_start demoRoutes2 c2s0 200 90 15 90 wp0
    (by norm_num [c2s0, trackerAInit, ALIGNMENT_CHECK_INTERVAL]) rfl rfl
    (by simp [normalizeAngleDiff_self]) rfl]
  rfl

theorem c2s2_eq :
    c2s2 = ⟨⟨some "r1", 0, true, some FeedbackMode.audio, true, 0⟩,
      ⟨none, some 200, 600⟩, trackerBInit, [900]⟩ := by
  unfold c2s2
  rw [c2s1_eq]
  rw [tickA_fires demoRoutes2 (⟨⟨some "r1", 0, true, some FeedbackMode.audio, false, 0⟩,
      ⟨none, some 200, 200⟩, trackerBInit, []⟩ : EngineState) 600 90 15 90 200 wp0
    (by norm_num [ALIGNMENT_CHECK_INTERVAL]) rfl rfl
    (by simp [normalizeAngleDiff_self]) rfl
    (by norm_num [ADVANCE_CONFIRMATION_MS])]
  norm_num [markWaypointReached]

theorem c2s3_eq :
    c2s3 = ⟨⟨some "r1", 0, false, some FeedbackMode.audio, false, 0⟩,
      ⟨none, some 200, 600⟩, trackerBInit, [900]⟩ := by
  unfold c2s3
  rw [c2s2_eq]
  rfl

theorem c2s4_eq :
    c2s4 = ⟨⟨some "r1", 1, false, some FeedbackMode.audio, false, 0⟩,
      ⟨none, none, 600⟩, trackerBInit, []⟩ := by
  unfold c2s4
  rw [c2s3_eq]
  rfl

theorem c3s1_eq :
    c3s1 = ⟨⟨some "r3", 0, true, some FeedbackMode.audio, false, 0⟩,
      ⟨none, some 200, 200⟩, trackerBInit, []⟩ := by
  unfold c3s1
  rw [tickA_sets_start demoRoutes3 c3s0 200 90 15 90 wp0
    (by norm_num [c3s0, trackerAInit, ALIGNMENT_CHECK_INTERVAL]) rfl rfl
    (by simp [normalizeAngleDiff_self]) rfl]
  rfl

theorem c3s2_eq :
    c3s2 = ⟨⟨some "r3", 0, true, some FeedbackMode.audio, true, 0⟩,
      ⟨none, some 200, 600⟩, trackerBInit, [900]⟩ := by
  unfold c3s2
  rw [c3s1_eq]
  rw [tickA_fires demoRoutes3 (⟨⟨some "r3", 0, true, some FeedbackMode.audio, false, 0⟩,
      ⟨none, some 200, 200⟩, trackerBInit, []⟩ : EngineState) 600 90 15 90 200 wp0
    (by norm_num [ALIGNMENT_CHECK_INTERVAL]) rfl rfl
    (by simp [normalizeAngleDiff_self]) rfl
    (by norm_num [ADVANCE_CONFIRMATION_MS])]
  norm_num [markWaypointReached]

theorem c3s3_eq :
    c3s3 = ⟨⟨some "r3", 0, true, some FeedbackMode.audio, true, 0⟩,
      ⟨none, some 200, 800⟩, trackerBInit, [900, 1100]⟩ := by
  unfold c3s3
  rw [c3s2_eq]
  rw [tickA_fires demoRoutes3 (⟨⟨some "r3", 0, true, some FeedbackMode.audio, true, 0⟩,
      ⟨none, some 200, 600⟩, trackerBInit, [900]⟩ : EngineState) 800 90 15 90 200 wp0
    (by norm_num [ALIGNMENT_CHECK_INTERVAL]) rfl rfl
    (by simp [normalizeAngleDiff_self]) rfl
    (by norm_num [ADVANCE_CONFIRMATION_MS])]
  norm_num [markWaypointReached]

theorem c3s4_eq :
    c3s4 = ⟨⟨some "r3", 1, true, some FeedbackMode.audio, false, 0⟩,
      ⟨none, none, 800⟩, trackerBInit, [1100]⟩ := by
  unfold c3s4
  rw [c3s3_eq]
  rfl

theorem c3s5_eq :
    c3s5 = ⟨⟨some "r3", 2, true, some FeedbackMode.audio, false, 0⟩,
      ⟨none, none, 800⟩, trackerBInit, []⟩ := by
  unfold c3s5
  rw [c3s4_eq]
  rfl

theorem tickA_no_fire_of_start_none (routes : List NavigationRoute)
    (s : EngineState) (now : ℚ) (heading : Option ℚ) (thr : ℚ)
    (h : s.trackerA.alignedStartTime = none) :
    (tickA routes s now heading thr).nav = s.nav ∧
    (tickA routes s now heading thr).pendingTimeouts = s.pendingTimeouts := by
  obtain ⟨nav, ⟨wst, ast, lac⟩, tB, pend⟩ := s
  subst h
  unfold tickA
  split
  · exact ⟨rfl, rfl⟩
  · dsimp only
    split
    · exact ⟨rfl, rfl⟩
    · split
      · exact ⟨rfl, rfl⟩
      · exact ⟨rfl, rfl⟩

theorem tickB_no_fire_of_reset (s : EngineState) (now : ℚ) (heading : Option ℚ)
    (hd : s.trackerB.headingChangeDetected = false)
    (hs : s.trackerB.headingStableSince = none) :
    (tickB s now heading).nav = s.nav ∧
    (tickB s now heading).pendingTimeouts = s.pendingTimeouts := by
  obtain ⟨nav, tA, ⟨ih, lh, hcd, hss⟩, pend⟩ := s
  subst hd
  subst hs
  unfold tickB
  cases heading with
  | none => exact ⟨rfl, rfl⟩
  | some h =>
    cases lh with
    | none => exact ⟨rfl, rfl⟩
    | some lastH =>
      dsimp only
      cases ih with
      | none =>
        rw [if_neg (by norm_num [HEADING_CHANGE_THRESHOLD])]
        exact ⟨rfl, rfl⟩
      | some initH =>
        dsimp only
        by_cases hc : HEADING_CHANGE_THRESHOLD ≤ |normalizeAngleDiff h initH|
        · rw [if_pos ⟨hc, rfl⟩]
          dsimp only
          split
          · split
            · exfalso
              rename_i hdur
              rw [sub_self] at hdur
              norm_num [HEADING_STABLE_DURATION] at hdur
            · exact ⟨rfl, rfl⟩
          · exact ⟨rfl, rfl⟩
        · rw [if_neg (fun hcon => hc hcon.1)]
          exact ⟨rfl, rfl⟩

theorem advanceToNextWaypoint_shape (routes : List NavigationRoute)
    (prev : NavigationState) :
    advanceToNextWaypoint routes prev = prev ∨
    advanceToNextWaypoint routes prev =
      { prev with isActive := false, reachedCurrentWaypoint := false } ∨
    ((advanceToNextWaypoint routes prev).currentWaypointIndex =
        prev.currentWaypointIndex + 1 ∧
      (advanceToNextWaypoint routes prev).currentStepCount = 0 ∧
      (advanceToNextWaypoint routes prev).reachedCurrentWaypoint = false) := by
  unfold advanceToNextWaypoint
  split
  · exact Or.inl rfl
  · split
    · exact Or.inl rfl
    · dsimp only
      split
      · exact Or.inr (Or.inl rfl)
      · exact Or.inr (Or.inr ⟨rfl, rfl, rfl⟩)

theorem headingMovement_reset (h : ℚ) (now : ℚ) :
    headingMovement (resetMovementTracker (some h)) now (some h) = (false, 0) := by
  unfold headingMovement resetMovementTracker
  simp [normalizeAngleDiff_self, HB_HEADING_CHANGE_THRESHOLD]

theorem movement_first_eval (h0 : Option ℚ) (now thr : ℚ) (target : Option ℚ)
    (accel lastAccel : Option AccelSample) :
    (calculateMovementStatus (resetMovementTracker h0) now h0 target thr
        accel lastAccel).hasMoved = false ∧
    (calculateMovementStatus (resetMovementTracker h0) now h0 target thr
        accel lastAccel).alignedMovementTime = 0 := by
  have hb : headingMovement (resetMovementTracker h0) now h0 = (false, 0) := by
    cases h0 with
    | none => rfl
    | some h => exact headingMovement_reset h now
  unfold calculateMovementStatus
  constructor
  · simp [hb]
  · simp [hb]

theorem headingMovement_cases (tr : MovementTracker) (now : ℚ)
    (heading : Option ℚ) :
    headingMovement tr now heading = (false, 0) ∨
    (headingMovement tr now heading).1 = true := by
  unfold headingMovement
  split
  case h_1 =>
    dsimp only
    split
    case isTrue =>
      split
      case h_1 =>
        split
        case isTrue => exact Or.inr rfl
        case isFalse => exact Or.inr rfl
      case h_2 => exact Or.inr rfl
    case isFalse => exact Or.inl rfl
  case h_2 => exact Or.inl rfl

theorem headingMovement_not_moved (tr : MovementTracker) (now : ℚ)
    (heading : Option ℚ) :
    (headingMovement tr now heading).1 = false →
    (headingMovement tr now heading).2 = 0 := by
  intro h
  rcases headingMovement_cases tr now heading with hc | hc
  · rw [hc]
  · simp [hc] at h

theorem calculateMovementStatus_conf (tr : MovementTracker) (now : ℚ)
    (heading target : Option ℚ) (thr : ℚ) (accel lastAccel : Option AccelSample) :
    (calculateMovementStatus tr now heading target thr accel lastAccel).movementConfidence =
      (headingMovement tr now heading).2 ∨
    (calculateMovementStatus tr now heading target thr accel lastAccel).movementConfidence =
      max (headingMovement tr now heading).2 (4 / 10) := by
  unfold calculateMovementStatus
  simp only
  split
  · split
    · exact Or.inr rfl
    · exact Or.inl rfl
  · exact Or.inl rfl

/-- C1: on every waypoint transition all per-waypoint tracking state is
discarded and reinitialized before the next evaluation: the reset effects
clear the aligned-since timer, heading-change detection and the stabilization
timer in both hooks; `advanceToNextWaypoint` either leaves the state alone,
completes the route, or moves to index+1 with `currentStepCount = 0`; and on
the first evaluation after a reset neither the Policy A tick, the Policy B
tick, nor the movement detector can emit an `Arrived` signal or a non-zero
`alignedMovementTime` (`hasMoved` is freshly `false`). -/
theorem waypoint_transition_resets_tracking
    (routes : List NavigationRoute) (s : EngineState) (prev : NavigationState)
    (now0 now thr : ℚ) (h0 heading target : Option ℚ)
    (accel lastAccel : Option AccelSample) :
    ((resetTrackersOnWaypointChange s now0 h0).trackerA.alignedStartTime = none ∧
     (resetTrackersOnWaypointChange s now0 h0).trackerB.headingChangeDetected = false ∧
     (resetTrackersOnWaypointChange s now0 h0).trackerB.headingStableSince = none ∧
     (resetMovementTracker h0).headingChangeDetected = false ∧
     (resetMovementTracker h0).headingStableSince = none ∧
     (resetMovementTracker h0).alignedStartTime = none) ∧
    (advanceToNextWaypoint routes prev = prev ∨
     advanceToNextWaypoint routes prev =
       { prev with isActive := false, reachedCurrentWaypoint := false } ∨
     ((advanceToNextWaypoint routes prev).currentWaypointIndex =
        prev.currentWaypointIndex + 1 ∧
      (advanceToNextWaypoint routes prev).currentStepCount = 0 ∧
      (advanceToNextWaypoint routes prev).reachedCurrentWaypoint = false)) ∧
    ((tickA routes (resetTrackersOnWaypointChange s now0 h0) now heading thr).nav =
       (resetTrackersOnWaypointChange s now0 h0).nav ∧
     (tickA routes (resetTrackersOnWaypointChange s now0 h0) now heading thr).pendingTimeouts =
       (resetTrackersOnWaypointChange s now0 h0).pendingTimeouts) ∧
    ((tickB (resetTrackersOnWaypointChange s now0 h0) now heading).nav =
       (resetTrackersOnWaypointChange s now0 h0).nav ∧
     (tickB (resetTrackersOnWaypointChange s now0 h0) now heading).pendingTimeouts =
       (resetTrackersOnWaypointChange s now0 h0).pendingTimeouts) ∧
    ((calculateMovementStatus (resetMovementTracker h0) now h0 target thr
        accel lastAccel).hasMoved = false ∧
     (calculateMovementStatus (resetMovementTracker h0) now h0 target thr
        accel lastAccel).alignedMovementTime = 0) := by
  refine ⟨⟨rfl, rfl, rfl, rfl, rfl, rfl⟩,
    advanceToNextWaypoint_shape routes prev,
    tickA_no_fire_of_start_none routes _ now heading thr rfl,
    tickB_no_fire_of_reset _ now heading rfl rfl,
    movement_first_eval h0 now thr target accel lastAccel⟩

/-- C2 (code-bug witness): a session started on a two-waypoint route confirms
arrival at waypoint 0 (scheduling the 300 ms settle-delay `setTimeout`), then
`Stop()` runs; the stopped session has `isActive = false` and index 0, yet the
pending timeout survives and its delivery calls `advanceToNextWaypoint`, which
has no `isActive` guard, mutating the stopped session's
`currentWaypointIndex` from 0 to 1 — the in-flight `Arrived` signal is
applied, not discarded. -/
theorem stop_then_late_settle_timeout_mutates_session :
    c2s3.nav.isActive = false ∧
    c2s3.nav.currentWaypointIndex = 0 ∧
    c2s3.pendingTimeouts = [900] ∧
    c2s4 = deliverSettleTimeout demoRoutes2 c2s3 ∧
    c2s4.nav.currentWaypointIndex = 1 ∧
    c2s4.nav.isActive = false := by
  refine ⟨?_, ?_, ?_, rfl, ?_, ?_⟩
  · rw [c2s3_eq]
  · rw [c2s3_eq]
  · rw [c2s3_eq]
  · rw [c2s4_eq]
  · rw [c2s4_eq]

/-- C3 (code-bug witness): Policy A with the user aligned throughout; the
interval tick at t=600 confirms arrival at waypoint 0 and schedules the settle
commit for t=900, but the aligned-since timer is not cleared, so the tick at
t=800 — still inside the grace period — fires a second `Arrived` and schedules
a second commit for t=1100.  Both commits are delivered: the index advances
from 0 to 1 and then to 2 with no evaluation ever made at waypoint 1, so one
confirmed arrival skips a waypoint instead of the second signal being
ignored. -/
theorem second_arrived_signal_commits_double_advance :
    c3s2.nav.currentWaypointIndex = 0 ∧
    c3s2.pendingTimeouts = [900] ∧
    c3s3.nav.currentWaypointIndex = 0 ∧
    c3s3.pendingTimeouts = [900, 1100] ∧
    c3s4.nav.currentWaypointIndex = 1 ∧
    c3s5.nav.currentWaypointIndex = 2 ∧
    c3s5.nav.isActive = true := by
  refine ⟨?_, ?_, ?_, ?_, ?_, ?_, ?_⟩
  · rw [c3s2_eq]
  · rw [c3s2_eq]
  · rw [c3s3_eq]
  · rw [c3s3_eq]
  · rw [c3s4_eq]
  · rw [c3s5_eq]
  · rw [c3s5_eq]

/-- C4: for an active session whose route resolves, `Advance` moves to
index+1 when that is still in range, resetting `currentStepCount` and
`reachedCurrentWaypoint` and staying active; when index+1 would reach the end
of the route the session becomes inactive with the index left unchanged; and
an in-range index can never leave the range -- the index never exceeds
`len - 1`. -/
theorem advanceToNextWaypoint_spec (routes : List NavigationRoute)
    (prev : NavigationState) (rid : String) (route : NavigationRoute)
    (hrid : prev.routeId = some rid)
    (hfind : findRoute routes rid = some route)
    (hact : prev.isActive = true) :
    (route.waypoints.length ≤ prev.currentWaypointIndex + 1 →
      (advanceToNextWaypoint routes prev).isActive = false ∧
      (advanceToNextWaypoint routes prev).currentWaypointIndex =
        prev.currentWaypointIndex) ∧
    (prev.currentWaypointIndex + 1 < route.waypoints.length →
      (advanceToNextWaypoint routes prev).isActive = true ∧
      (advanceToNextWaypoint routes prev).currentWaypointIndex =
        prev.currentWaypointIndex + 1 ∧
      (advanceToNextWaypoint routes prev).currentStepCount = 0 ∧
      (advanceToNextWaypoint routes prev).reachedCurrentWaypoint = false) ∧
    (prev.currentWaypointIndex < route.waypoints.length →
      (advanceToNextWaypoint routes prev).currentWaypointIndex <
        route.waypoints.length) := by
  unfold advanceToNextWaypoint
  rw [hrid]
  dsimp only
  rw [hfind]
  dsimp only
  split
  · rename_i hle
    refine ⟨fun _ => ⟨rfl, rfl⟩, fun hlt => absurd hlt (by omega), fun hlt => ?_⟩
    simpa using hlt
  · rename_i hgt
    have hlt : prev.currentWaypointIndex + 1 < route.waypoints.length := by omega
    refine ⟨fun hle => absurd hle (by omega),
      fun _ => ⟨by simpa using hact, rfl, rfl, rfl⟩, fun _ => ?_⟩
    simpa using hlt

/-- C4 witness: advancing the freshly started two-waypoint session moves from
index 0 to index 1, stays active, and resets the step count and reached
flag. -/
theorem advanceToNextWaypoint_spec_witness :
    (advanceToNextWaypoint demoRoutes2 startedNav2).isActive = true ∧
    (advanceToNextWaypoint demoRoutes2 startedNav2).currentWaypointIndex = 1 ∧
    (advanceToNextWaypoint demoRoutes2 startedNav2).currentStepCount = 0 ∧
    (advanceToNextWaypoint demoRoutes2 startedNav2).reachedCurrentWaypoint = false := by
  have h := advanceToNextWaypoint_spec demoRoutes2 startedNav2 "r1" demoRoute2
    rfl rfl rfl
  exact h.2.1 (by decide)

/-- C5 counterexample: the claim puts `normalizeAngleDiff` in the half-open
interval (-180, 180], with a difference of exactly 180 degrees normalizing to
+180, never -180.  At `current = 180`, `target = 0` — headings exactly 180
degrees apart — the raw difference is -180, neither while-loop runs, and the
function returns -180, which is outside (-180, 180]. -/
theorem normalizeAngleDiff_hits_neg180 :
    normalizeAngleDiff 180 0 = -180 ∧ ¬ (-180 < normalizeAngleDiff 180 0) := by
  have h : normalizeAngleDiff 180 0 = -180 := by
    have he := normalizeAngleDiff_eq 180 0 (by norm_num) (by norm_num)
    simpa using he
  exact ⟨h, by rw [h]; exact lt_irrefl (-180)⟩

/-- C5 amended: for all angles `a`, `b` the result lies in the CLOSED interval
[-180, 180]; a raw difference of exactly +180 normalizes to +180, but a raw
difference of exactly -180 is returned as -180 (the doc comment in the source
states the closed range [-180, 180]). -/
theorem normalizeAngleDiff_range_closed (a b : ℚ) :
    (-180 ≤ normalizeAngleDiff a b ∧ normalizeAngleDiff a b ≤ 180) ∧
    normalizeAngleDiff 0 180 = 180 := by
  refine ⟨normalizeAngleDiff_mem a b, ?_⟩
  have he := normalizeAngleDiff_eq 0 180 (by norm_num) (by norm_num)
  simpa using he

/-- C6: the alignment evaluation satisfies, for every combination of optional
headings and every threshold `t ≥ 0`: absent target heading gives
`aligned = true` with no error values; target present but current heading
absent gives `aligned = false`; with both present the error is
`normalizeAngleDiff(current, target)`, the absolute error its absolute value,
and `aligned` holds exactly when the absolute error is at most the
threshold. -/
theorem calculateAlignment_cases (thr : ℚ) (hthr : 0 ≤ thr) :
    (∀ c : Option ℚ, calculateAlignment c none thr =
        { alignmentError := none, absoluteError := none, isAligned := true }) ∧
    (∀ t : ℚ, calculateAlignment none (some t) thr =
        { alignmentError := none, absoluteError := none, isAligned := false }) ∧
    (∀ c t : ℚ,
        (calculateAlignment (some c) (some t) thr).alignmentError =
          some (normalizeAngleDiff c t) ∧
        (calculateAlignment (some c) (some t) thr).absoluteError =
          some |normalizeAngleDiff c t| ∧
        ((calculateAlignment (some c) (some t) thr).isAligned = true ↔
          |normalizeAngleDiff c t| ≤ thr)) := by
  refine ⟨?_, ?_, ?_⟩
  · intro c
    cases c <;> rfl
  · intro t
    rfl
  · intro c t
    refine ⟨rfl, rfl, ?_⟩
    simp [calculateAlignment]

/-- C6 witness: at threshold 15, a directionless waypoint is trivially
aligned, and a target heading without a compass fix is not aligned. -/
theorem calculateAlignment_cases_witness :
    calculateAlignment (some 90) none 15 =
      { alignmentError := none, absoluteError := none, isAligned := true } ∧
    (calculateAlignment none (some 90) 15).isAligned = false := by
  obtain ⟨h1, h2, h3⟩ := calculateAlignment_cases 15 (by norm_num)
  exact ⟨h1 (some 90), by rw [h2 90]⟩

/-- C7: for a step-gated segment (`stepCountToNext = some r`), `canAdvance`
holds exactly when the step count has reached `r` and the user is aligned
(directionless waypoints counting as trivially aligned); concretely, with
`requiredSteps = 10` and trivial alignment, nine `IncrementStep` calls leave
`canAdvance = false` and the tenth makes it `true`. -/
theorem stepGate_canAdvance (w : NavigationWaypoint) (s : NavigationState)
    (heading : Option ℚ) (thr : ℚ) (r : Nat)
    (hreq : w.stepCountToNext = some r) :
    ((calculateStepStatus w s heading thr).canAdvance = true ↔
      (r ≤ s.currentStepCount ∧
        (calculateAlignment heading w.targetHeading thr).isAligned = true)) ∧
    (calculateStepStatus stepWp (incrementStepCount^[9] startedNav2) none thr).canAdvance
      = false ∧
    (calculateStepStatus stepWp (incrementStepCount^[10] startedNav2) none thr).canAdvance
      = true := by
  refine ⟨?_, ?_, ?_⟩
  · simp [calculateStepStatus, hreq, Bool.and_eq_true, decide_eq_true_eq]
  · simp only [calculateStepStatus, stepWp, calculateAlignment]
    decide
  · simp only [calculateStepStatus, stepWp, calculateAlignment]
    decide

/-- C7 witness: the theorem applied to the step-gated waypoint itself, at
threshold 15. -/
theorem stepGate_canAdvance_witness :
    ((calculateStepStatus stepWp startedNav2 none 15).canAdvance = true ↔
      (10 ≤ startedNav2.currentStepCount ∧
        (calculateAlignment none stepWp.targetHeading 15).isAligned = true)) ∧
    (calculateStepStatus stepWp (incrementStepCount^[9] startedNav2) none 15).canAdvance
      = false ∧
    (calculateStepStatus stepWp (incrementStepCount^[10] startedNav2) none 15).canAdvance
      = true :=
  stepGate_canAdvance stepWp startedNav2 none 15 10 rfl

/-- C8: `Start` on a stored route with zero waypoints is rejected — the
configuration warning is emitted synchronously and the session state is
returned entirely unchanged (no partial start) — while `Start` on a route with
at least one waypoint activates the session at index 0 with
`currentStepCount = 0` and `reachedCurrentWaypoint = false`. -/
theorem startNavigation_spec (routes : List NavigationRoute) (rid : String)
    (mode : FeedbackMode) (prev : NavigationState) (route : NavigationRoute)
    (hfind : findRoute routes rid = some route) :
    (route.waypoints.length = 0 →
      startNavigation routes rid mode prev =
        (some "Cannot start navigation: route not found or has no waypoints",
          prev)) ∧
    (route.waypoints.length ≠ 0 →
      startNavigation routes rid mode prev =
        (none,
          { routeId := some rid
            currentWaypointIndex := 0
            isActive := true
            feedbackMode := some mode
            reachedCurrentWaypoint := false
            currentStepCount := 0 })) := by
  unfold startNavigation
  rw [hfind]
  dsimp only
  constructor
  · intro h0
    rw [if_pos h0]
  · intro h0
    rw [if_neg h0]

/-- C8 witness: starting on the stored zero-waypoint route leaves the initial
state untouched and reports the warning; starting on the two-waypoint route
activates the session at index 0. -/
theorem startNavigation_spec_witness :
    startNavigation emptyRoutes "r0" FeedbackMode.audio navInit =
      (some "Cannot start navigation: route not found or has no waypoints",
        navInit) ∧
    startNavigation demoRoutes2 "r1" FeedbackMode.audio navInit =
      (none,
        { routeId := some "r1"
          currentWaypointIndex := 0
          isActive := true
          feedbackMode := some FeedbackMode.audio
          reachedCurrentWaypoint := false
          currentStepCount := 0 }) := by
  constructor
  · exact (startNavigation_spec emptyRoutes "r0" FeedbackMode.audio navInit
      emptyRoute rfl).1 rfl
  · exact (startNavigation_spec demoRoutes2 "r1" FeedbackMode.audio navInit
      demoRoute2 rfl).2 (by decide)

/-- C9 counterexample: the claim says `movementConfidence = 0` whenever
`hasMoved = false`.  With the heading steady (no change detected, so
`hasMoved = false`) but an accelerometer delta of magnitude 1 above the 0.1
threshold, the source's accelerometer fusion — which sits outside the
heading-change branch — floors the confidence at 0.4. -/
theorem movementConfidence_nonzero_without_hasMoved :
    c9Status.hasMoved = false ∧ c9Status.movementConfidence = 4 / 10 ∧
    ¬ c9Status.movementConfidence = 0 := by
  have h : c9Status = ⟨true, false, 4 / 10, 0, none⟩ := by
    unfold c9Status calculateMovementStatus
    have hb : headingMovement c9Tracker 1000 (some 0) = (false, 0) := by
      unfold headingMovement c9Tracker
      simp [normalizeAngleDiff_self, HB_HEADING_CHANGE_THRESHOLD]
    norm_num [hb, accelDeltaExceeds, calculateAlignment,
      ACCELEROMETER_THRESHOLD]
    simp [c9Tracker]
  rw [h]
  refine ⟨rfl, rfl, by norm_num⟩

/-- C9 amended: the heading-based estimate contributes 0 whenever
`hasMoved = false`, and the accelerometer fusion only ever takes the maximum
of the heading-based estimate and 0.4 (never combines them additively) — so
when `hasMoved = false` the confidence is either 0 or exactly the 0.4
accelerometer floor. -/
theorem movementConfidence_fusion_max (tr : MovementTracker) (now : ℚ)
    (heading target : Option ℚ) (thr : ℚ)
    (accel lastAccel : Option AccelSample) :
    ((calculateMovementStatus tr now heading target thr accel lastAccel).hasMoved
        = false →
      (calculateMovementStatus tr now heading target thr accel lastAccel).movementConfidence
          = 0 ∨
      (calculateMovementStatus tr now heading target thr accel lastAccel).movementConfidence
          = 4 / 10) ∧
    ((calculateMovementStatus tr now heading target thr accel lastAccel).movementConfidence
        = (headingMovement tr now heading).2 ∨
     (calculateMovementStatus tr now heading target thr accel lastAccel).movementConfidence
        = max (headingMovement tr now heading).2 (4 / 10)) := by
  have hc := calculateMovementStatus_conf tr now heading target thr accel lastAccel
  constructor
  · intro h
    have hb : (headingMovement tr now heading).1 = false := h
    have h0 := headingMovement_not_moved tr now heading hb
    rcases hc with hc | hc
    · left
      rw [hc, h0]
    · right
      rw [hc, h0]
      norm_num
  · exact hc

/-- C9 amended witness: the theorem applied at the accelerometer-only input,
with the `hasMoved = false` hypothesis discharged by evaluation. -/
theorem movementConfidence_fusion_max_witness :
    (calculateMovementStatus c9Tracker 1000 (some 0) none 15
        (some { x := 1, y := 0, z := 0 })
        (some { x := 0, y := 0, z := 0 })).movementConfidence = 0 ∨
    (calculateMovementStatus c9Tracker 1000 (some 0) none 15
        (some { x := 1, y := 0, z := 0 })
        (some { x := 0, y := 0, z := 0 })).movementConfidence = 4 / 10 := by
  have h := movementConfidence_fusion_max c9Tracker 1000 (some 0) none 15
    (some { x := 1, y := 0, z := 0 }) (some { x := 0, y := 0, z := 0 })
  refine h.1 ?_
  have hb : headingMovement c9Tracker 1000 (some 0) = (false, 0) := by
    unfold headingMovement c9Tracker
    simp [normalizeAngleDiff_self, HB_HEADING_CHANGE_THRESHOLD]
  show (headingMovement c9Tracker 1000 (some 0)).1 = false
  rw [hb]

/-- C10: `Stop` writes exactly `isActive := false`,
`reachedCurrentWaypoint := false` and `currentStepCount := 0`; in particular
`routeId` and `currentWaypointIndex` are left unchanged, so the waypoint index
current at the moment of stopping remains readable afterwards. -/
theorem stopNavigation_frame (prev : NavigationState) :
    stopNavigation prev =
      { prev with
          isActive := false
          reachedCurrentWaypoint := false
          currentStepCount := 0 } ∧
    (stopNavigation prev).routeId = prev.routeId ∧
    (stopNavigation prev).currentWaypointIndex = prev.currentWaypointIndex ∧
    (stopNavigation prev).feedbackMode = prev.feedbackMode :=
  ⟨rfl, rfl, rfl, rfl⟩
